import Mathlib

/-!
Verification of the VillaJets document-extraction pipeline
(`crm/helpers/strategies.py` and `crm/helpers/doc_extract.py`).

The Python code is shallowly embedded below.  Conventions:

* Python `Optional[T]` becomes `Option T`; Python `or` on optional strings
  becomes `pyOrStr`, which follows Python truthiness (the empty string is
  falsy, so `some "" or b` yields `b`).
* Python `float` confidence arithmetic is modelled with exact rationals.
* `datetime.date` is modelled by a `year`/`month`/`day` record; ordering and
  `timedelta` arithmetic are expressed through `Date.rataDie`, a day count
  computed with the standard civil-calendar algorithm, so that
  `a < b - timedelta(days = k)` becomes `a.rataDie + k < b.rataDie`.
  The constructor validity check of `datetime.date` is `mkDate?`.
* Mutable per-instance state (confidence, error and warning lists) is passed
  explicitly.
-/

/-- Model of `datetime.date`: a calendar date as stored (year, month, day). -/
structure Date where
  year : Nat
  month : Nat
  day : Nat
deriving DecidableEq, Repr

/-- Gregorian leap-year rule, as used by `datetime.date`. -/
def isLeapYear (y : Nat) : Bool :=
  (y % 4 == 0 && y % 100 != 0) || y % 400 == 0

/-- Number of days in a month of a given year (Gregorian calendar). -/
def daysInMonth (y m : Nat) : Nat :=
  if m = 2 then (if isLeapYear y then 29 else 28)
  else if m = 4 ∨ m = 6 ∨ m = 9 ∨ m = 11 then 30
  else 31

/-- Model of the `datetime.date(y, m, d)` constructor: returns `none` exactly
when Python raises `ValueError` (year outside 1..9999, month outside 1..12,
or day outside the month's range). -/
def mkDate? (y m d : Nat) : Option Date :=
  if 1 ≤ y ∧ y ≤ 9999 ∧ 1 ≤ m ∧ m ≤ 12 ∧ 1 ≤ d ∧ d ≤ daysInMonth y m then
    some ⟨y, m, d⟩
  else none

/-- Day number of a date (days since 0000-03-01 in the proleptic Gregorian
calendar, via the standard civil-from-days algorithm).  For valid dates this
is strictly monotone in calendar order, so it models both `datetime.date`
comparison and `timedelta` day arithmetic. -/
def Date.rataDie (dt : Date) : Nat :=
  let y := if dt.month ≤ 2 then dt.year - 1 else dt.year
  let era := y / 400
  let yoe := y % 400
  let mp := (dt.month + 9) % 12
  let doy := (153 * mp + 2) / 5 + dt.day - 1
  let doe := yoe * 365 + yoe / 4 - yoe / 100 + doy
  era * 146097 + doe

/-- Model of the `ExtractionResult` dataclass (`strategies.py`, lines 45-78). -/
structure ExtractionResult where
  number : Option String
  issued_country : Option String
  expiration_date : Option Date
  confidence : ℚ
  validation_errors : List String
  warnings : List String
deriving DecidableEq, Repr

/-- Model of the `MRZData` dataclass (`strategies.py`, lines 80-87). -/
structure MRZDataRec where
  document_type : Option String
  country_code : Option String
  number : Option String
  expiration_date : Option Date
  expiration_date_str : Option String
deriving DecidableEq, Repr

/-- Python `a or b` on two optional strings: `a` when `a` is truthy
(non-null and non-empty), otherwise `b`. -/
def pyOrStr (a b : Option String) : Option String :=
  match a with
  | some s => if s = "" then b else some s
  | none => b

/-- Model of `DocumentExtractionStrategy._merge_results`
(`strategies.py`, lines 115-124).  The field merges are Python `or`: a date
object is always truthy, while an empty string is falsy. -/
def mergeResults (primary fallback : ExtractionResult) : ExtractionResult :=
  { number := pyOrStr primary.number fallback.number
    issued_country := pyOrStr primary.issued_country fallback.issued_country
    expiration_date := primary.expiration_date.orElse fun _ => fallback.expiration_date
    confidence := min primary.confidence fallback.confidence
    validation_errors := primary.validation_errors ++ fallback.validation_errors
    warnings := primary.warnings ++ fallback.warnings }

/-- One mutation of an `ExtractionResult`: an `add_error` or `add_warning`
call (`strategies.py`, lines 70-78; the strategy-level copies at lines
181-191 use the same formulas). -/
inductive ConfEvent where
  | err (msg : String)
  | warn (msg : String)
deriving DecidableEq, Repr

/-- Effect of one `add_error` / `add_warning` call: append the message and
lower the confidence by 0.2 (error) or 0.1 (warning), floored at 0. -/
def applyEvent (r : ExtractionResult) : ConfEvent → ExtractionResult
  | .err m =>
      { r with validation_errors := r.validation_errors ++ [m]
               confidence := max 0 (r.confidence - 1/5) }
  | .warn m =>
      { r with warnings := r.warnings ++ [m]
               confidence := max 0 (r.confidence - 1/10) }

/-- An interleaved sequence of `add_error` / `add_warning` calls. -/
def runEvents (r : ExtractionResult) (es : List ConfEvent) : ExtractionResult :=
  es.foldl applyEvent r

/-- Confidence deduction of a single event. -/
def eventCost : ConfEvent → ℚ
  | .err _ => 1/5
  | .warn _ => 1/10

/-- Total confidence deduction of an event sequence. -/
def totalCost (es : List ConfEvent) : ℚ := (es.map eventCost).sum

/-- Number of `add_error` calls in a sequence. -/
def numErrors : List ConfEvent → Nat
  | [] => 0
  | .err _ :: es => numErrors es + 1
  | .warn _ :: es => numErrors es

/-- Number of `add_warning` calls in a sequence. -/
def numWarnings : List ConfEvent → Nat
  | [] => 0
  | .err _ :: es => numWarnings es
  | .warn _ :: es => numWarnings es + 1

/-!  Strategy chain structure (`strategies.py`, lines 90-113 and 1179-1222).

Each concrete strategy class is represented by its tag; a chain node is a
tag together with the `_fallback_strategy` reference set in `__init__`
(`None`) or by `add_fallback_strategy`. -/

/-- The concrete strategy classes registered in `STRATEGY_REGISTRY`. -/
inductive StrategyTag where
  | MRZ | ESP | EGY | EU | USA | GEN | VISA | ID
deriving DecidableEq, Repr

/-- A strategy instance: its class tag plus its `_fallback_strategy` slot. -/
inductive Strategy where
  | node (tag : StrategyTag) (fallback : Option Strategy)

/-- The class tag of a strategy instance. -/
def Strategy.tagOf : Strategy → StrategyTag
  | .node t _ => t

/-- The `_fallback_strategy` slot of a strategy instance. -/
def Strategy.fallbackOf : Strategy → Option Strategy
  | .node _ f => f

/-- Model of `add_fallback_strategy` (`strategies.py`, lines 99-101):
`self._fallback_strategy = strategy` — assignment, so a second call
overwrites the first fallback. -/
def addFallback : Strategy → Strategy → Strategy
  | .node t _, s => .node t (some s)

/-- The strategies executed, in order, by `chain_strategies`
(`strategies.py`, lines 103-113): the `while strategy:` loop walks the
`_fallback_strategy` links and runs `extract` on every node. -/
def chainTags : Strategy → List StrategyTag
  | .node t none => [t]
  | .node t (some s) => t :: chainTags s

/-- The per-strategy `ExtractionResult` list collected by the
`chain_strategies` loop, given the result each strategy class produces on
the call's inputs. -/
def chainResultsList (extractOf : StrategyTag → ExtractionResult) : Strategy → List ExtractionResult
  | .node t none => [extractOf t]
  | .node t (some s) => extractOf t :: chainResultsList extractOf s

/-- The pairwise left fold of `_merge_results` over the collected results
(`strategies.py`, lines 110-113). -/
def foldMerge (r : ExtractionResult) : List ExtractionResult → ExtractionResult
  | [] => r
  | x :: xs => foldMerge (mergeResults r x) xs

/-- Model of `chain_strategies`: run every strategy in the chain, then fold
the results with `_merge_results`. -/
def chain_strategies (extractOf : StrategyTag → ExtractionResult) (s : Strategy) : ExtractionResult :=
  match chainResultsList extractOf s with
  | [] => extractOf s.tagOf
  | r :: rs => foldMerge r rs

/-- Lookup in `STRATEGY_REGISTRY` (`strategies.py`, lines 1167-1177) by the
exact, case-sensitive key. -/
def registryLookup (s : String) : Option StrategyTag :=
  if s = "MRZ" then some .MRZ
  else if s = "ESP" then some .ESP
  else if s = "EGY" then some .EGY
  else if s = "EU" then some .EU
  else if s = "USA" then some .USA
  else if s = "GEN" then some .GEN
  else if s = "VISA" then some .VISA
  else if s = "ID" then some .ID
  else none

/-- Python `str.lower()` restricted to its ASCII behaviour (all inputs this
code compares against are ASCII); written over the character list so that it
evaluates inside the kernel. -/
def pyLower (s : String) : String := ⟨s.data.map Char.toLower⟩

/-- Model of `get_strategy` (`strategies.py`, lines 1179-1222).  The
`"passport"` branch performs five successive `add_fallback_strategy` calls
on the same `MRZStrategy` instance; the sequential rebinding below mirrors
that mutation. -/
def get_strategy (docType : String) : Strategy :=
  let lower := pyLower docType
  if lower = "passport" then
    let mrz := Strategy.node .MRZ none
    let mrz := addFallback mrz (.node .ESP none)
    let mrz := addFallback mrz (.node .EGY none)
    let mrz := addFallback mrz (.node .EU none)
    let mrz := addFallback mrz (.node .USA none)
    let mrz := addFallback mrz (.node .GEN none)
    mrz
  else if lower = "visa" then .node .VISA none
  else if lower = "id" ∨ lower = "id_card" ∨ lower = "drivers_license" then .node .ID none
  else
    match registryLookup docType with
    | some t => .node t none
    | none => .node .GEN none

/-!  Pivot-year rules.  Three distinct formulas appear in the source. -/

/-- Two-digit-year expansion in `MRZStrategy.extract`
(`strategies.py`, line 496): `year += 2000 if year < 50 else 1900`. -/
def mrzPivot (y : Nat) : Nat :=
  if y < 50 then y + 2000 else y + 1900

/-- Two-digit-year expansion inside `_find_expiration_date._build_date`
(`strategies.py`, line 1273): `y += 2000 if y <= (today.year % 100) + 10
else 1900`. -/
def pivotYY (todayYear y : Nat) : Nat :=
  if y ≤ todayYear % 100 + 10 then y + 2000 else y + 1900

/-- Two-digit-year expansion in the `YYMMDD` regex fallback of
`_parse_date_with_pivot_and_validation` (`strategies.py`, lines 317-328):
`if year_int >= current_year_yy - 20` keep the current century, else move to
the next one.  The subtraction is Python integer arithmetic, hence `Int`. -/
def parsePivotYYMMDD (todayYear yy : Nat) : Nat :=
  if (yy : Int) ≥ (todayYear % 100 : Int) - 20 then yy + (todayYear / 100) * 100
  else yy + (todayYear / 100 + 1) * 100

/-- Model of Python `int(s)` on the digit substrings this code slices: the
parse succeeds on a non-empty all-digit string (sign prefixes, which `int`
also accepts, cannot reach these call sites in a relevant way and are not
modelled). -/
def digitsToNat? (cs : List Char) : Option Nat :=
  if cs ≠ [] ∧ cs.all Char.isDigit then
    some (cs.foldl (fun n c => n * 10 + (c.toNat - 48)) 0)
  else none

/-- Model of the `YYMMDD` expiration-date parse in `MRZStrategy.extract`
(`strategies.py`, lines 488-506): slice the string into two-digit year,
month and day, expand the year with `mrzPivot`, and build a `date`; any
exception (non-numeric slice, invalid date) yields `None`. -/
def mrzStrategyParseExp (s : String) : Option Date :=
  let cs := s.data
  match (digitsToNat? (cs.take 2), digitsToNat? ((cs.drop 2).take 2),
         digitsToNat? ((cs.drop 4).take 2)) with
  | (some y, some m, some d) => mkDate? (mrzPivot y) m d
  | _ => none

/-!  Date construction and validation paths. -/

/-- Model of `_find_expiration_date._build_date`
(`strategies.py`, lines 1270-1277): expand a two-digit year with `pivotYY`,
build the date (`ValueError` yields `none`), and keep it only if it is
strictly after `today`. -/
def build_date (d m y : Nat) (today : Date) : Option Date :=
  match mkDate? (if y < 100 then pivotYY today.year y else y) m d with
  | none => none
  | some dt => if today.rataDie < dt.rataDie then some dt else none

/-- Model of the final validation block of
`_parse_date_with_pivot_and_validation` (`strategies.py`, lines 356-380),
applied to the already-parsed candidate and the accumulated error/warning
lists.  The message strings stand in for the interpolated Python messages.
`parsed < today - timedelta(days=1)` is `parsed.rataDie + 1 < today.rataDie`
and `parsed > today + timedelta(days=365*20)` is
`today.rataDie + 7300 < parsed.rataDie`. -/
def finalDateValidation (today : Date) (parsed : Option Date)
    (errors warnings : List String) : Option Date × List String × List String :=
  match parsed with
  | some pd =>
    if pd.rataDie + 1 < today.rataDie then
      (none, errors ++ ["Date is in the past"], warnings)
    else if today.rataDie + 7300 < pd.rataDie then
      (some pd, errors, warnings ++ ["Suspiciously far future date"])
    else
      (some pd, errors, warnings)
  | none =>
    (none, errors ++ ["Could not parse date from string using any method"], warnings)

/-!  `_find_expiration_date` (`strategies.py`, lines 1224-1375).

The function is a four-stage cascade.  Its regex scans and the external
`dateparser` library are represented as data: a `ScanData` record holds, for
the input text, exactly what each compiled pattern's `finditer`/`search`
calls produce, and the permissive parser is a function parameter.  The
control flow, month-name table, pivot arithmetic, date construction,
future-date filtering and furthest-date selection are modelled concretely. -/

/-- The `MONTH_MAP` table of `_find_expiration_date` keyed by the normalized
(ASCII-uppercased) probe.  The accented dictionary keys of the source
(`MÄR`, `FÉV`, `AOÛ`) are unreachable because `_normalize_month_name`
ASCII-folds its input before lookup, so only the ASCII keys are listed. -/
def monthMap : List (String × Nat) :=
  [("JAN", 1), ("FEB", 2), ("MAR", 3), ("APR", 4), ("MAY", 5), ("JUN", 6),
   ("JUL", 7), ("AUG", 8), ("SEP", 9), ("OCT", 10), ("NOV", 11), ("DEC", 12),
   ("ENE", 1), ("ABR", 4), ("AGO", 8), ("DIC", 12),
   ("MAER", 3), ("OKT", 10), ("DEZ", 12),
   ("JANV", 1), ("FEV", 2), ("AVR", 4), ("JUIL", 7), ("AOUT", 8)]

/-- Model of `_normalize_month_name`: uppercase the probe (regex-sourced
inputs are ASCII) and look it up in `MONTH_MAP`. -/
def normalizeMonthName (s : String) : Option Nat :=
  (monthMap.find? fun p => p.1 == String.mk (s.data.map Char.toUpper)).map (·.2)

/-- The matches the compiled patterns of `_find_expiration_date` produce on
one keyword-window block (keyword line plus up to three following lines,
whitespace-collapsed): the first `FULL_NUM` match as parsed day/month/year
integers, the first `NAME_MID` match (optional day group, month-name group,
year), and the first `YEAR_ONLY` match. -/
structure KeywordBlock where
  fullNum : Option (Nat × Nat × Nat)
  nameMid : Option (Option Nat × String × Nat)
  yearOnly : Option Nat
deriving DecidableEq, Repr

/-- All regex-scan outcomes of `_find_expiration_date` on a given text:
`DD_MON_YYYY.finditer` matches (day, month-name, year) in order, the
keyword-window blocks in line order, the `date_like_re.finditer` tokens of
the permissive fallback in order, and the `20\d\d` bare-year matches. -/
structure ScanData where
  ddMonMatches : List (Nat × String × Nat)
  keywordBlocks : List KeywordBlock
  dateLikeTokens : List String
  bareYears : List Nat
deriving DecidableEq, Repr

/-- A return value of `_find_expiration_date`, whose Python signature is
`int | date | None` (the keyword-window stage can return a bare year). -/
inductive FindOutcome where
  | found (d : Date)
  | yearFound (y : Nat)
  | nothing
deriving DecidableEq, Repr

/-- Stage 1 of `_find_expiration_date` (lines 1282-1295): a six-character
MRZ `YYMMDD` string is sliced, parsed and passed to `_build_date`; parse
errors and rejected dates fall through to the next stage. -/
def mrzStage (mrzExp : Option String) (today : Date) : Option Date :=
  match mrzExp with
  | none => none
  | some s =>
    if s.data.length = 6 then
      match (digitsToNat? (s.data.take 2), digitsToNat? ((s.data.drop 2).take 2),
             digitsToNat? ((s.data.drop 4).take 2)) with
      | (some y, some m, some d) => build_date d m y today
      | _ => none
    else none

/-- Stage 2 (lines 1297-1307): the first `DD_MON_YYYY` match whose month
name normalizes and whose `_build_date` succeeds wins. -/
def ddMonStage (ms : List (Nat × String × Nat)) (today : Date) : Option Date :=
  ms.findSome? fun t =>
    match normalizeMonthName t.2.1 with
    | some m => build_date t.1 m t.2.2 today
    | none => none

/-- One keyword-window block of stage 3 (lines 1309-1347): try `FULL_NUM`,
then `NAME_MID` (day defaulting to 1), then `YEAR_ONLY` (accepted when the
year is 1 to 20 years in the future, returned as a bare year). -/
def keywordBlockTry (today : Date) (b : KeywordBlock) : Option FindOutcome :=
  (b.fullNum.bind fun t => (build_date t.1 t.2.1 t.2.2 today).map .found).orElse fun _ =>
  (b.nameMid.bind fun t =>
      match normalizeMonthName t.2.1 with
      | some m => (build_date (t.1.getD 1) m t.2.2 today).map .found
      | none => none).orElse fun _ =>
  b.yearOnly.bind fun y =>
    if today.year < y ∧ y ≤ today.year + 20 then some (.yearFound y) else none

/-- Stage 3: the keyword-window blocks are tried in line order; the first
block that yields a date or a bare year returns it. -/
def keywordStage (bs : List KeywordBlock) (today : Date) : Option FindOutcome :=
  bs.findSome? (keywordBlockTry today)

/-- The future-date candidates of the permissive fallback (lines 1352-1361):
each `date_like_re` token is handed to the permissive parser and kept when
it parses to a date strictly after today.  (The source collects them in a
set; a list is kept here — duplicates do not change the maximum.) -/
def futureCandidates (parse : String → Option Date) (tokens : List String)
    (today : Date) : List Date :=
  (tokens.filterMap parse).filter fun dt => today.rataDie < dt.rataDie

/-- The later of two dates, by day number. -/
def dateMax (a b : Date) : Date := if a.rataDie < b.rataDie then b else a

/-- `max` over a candidate list (the `[]` case is never reached from a
non-empty candidate set and returns a sentinel). -/
def listMaxD : List Date → Date
  | [] => ⟨1, 1, 1⟩
  | x :: xs => xs.foldl dateMax x

/-- Stage 4, the permissive fallback (lines 1349-1372): collect the future
parses of the date-like tokens; if there are none, synthesize 31 December of
the first bare year lying 1 to 20 years in the future; if any candidate
exists return the furthest (`max`) one. -/
def fallbackStage (parse : String → Option Date) (scan : ScanData)
    (today : Date) : Option Date :=
  let cands := futureCandidates parse scan.dateLikeTokens today
  let cands :=
    if cands.isEmpty then
      match scan.bareYears.find? (fun y => decide (today.year < y) && decide (y ≤ today.year + 20)) with
      | some y => [⟨y, 12, 31⟩]
      | none => []
    else cands
  match cands with
  | [] => none
  | x :: xs => some (xs.foldl dateMax x)

/-- Model of `_find_expiration_date`: the four stages in cascade, each
attempted only when every earlier stage produced nothing. -/
def find_expiration_date (parse : String → Option Date) (scan : ScanData)
    (mrzExp : Option String) (today : Date) : FindOutcome :=
  match mrzStage mrzExp today with
  | some dt => .found dt
  | none =>
    match ddMonStage scan.ddMonMatches today with
    | some dt => .found dt
    | none =>
      match keywordStage scan.keywordBlocks today with
      | some r => r
      | none =>
        match fallbackStage parse scan today with
        | some dt => .found dt
        | none => .nothing

/-!  Country-candidate selection in `GenericStrategy.extract`
(`strategies.py`, lines 994-1072). -/

/-- A scored country candidate `(value, score, source)` as appended to
`country_candidates`. -/
structure CountryCandidate where
  code : String
  score : ℚ
  source : String
deriving DecidableEq, Repr

/-- Strict less-than on the sort key
`(score, source != "MRZ", source != "Header", source != "Context")`
(line 1068), tuples compared lexicographically with `False < True`. -/
def sortKeyLt (x y : CountryCandidate) : Bool :=
  if x.score < y.score then true
  else if y.score < x.score then false
  else if (x.source != "MRZ") ≠ (y.source != "MRZ") then y.source != "MRZ"
  else if (x.source != "Header") ≠ (y.source != "Header") then y.source != "Header"
  else if (x.source != "Context") ≠ (y.source != "Context") then y.source != "Context"
  else false

/-- Model of the final selection (lines 1065-1072):
`sort(key=..., reverse=True)` is stable, so its first element is the
earliest candidate with a maximal key; the fold keeps the current best and
replaces it only when a strictly greater key appears, which computes exactly
that element.  An empty candidate list leaves `issued_country` as `None`. -/
def selectCountry (cs : List CountryCandidate) : Option String :=
  match cs with
  | [] => none
  | c :: rest =>
    some ((rest.foldl (fun best x => if sortKeyLt best x then x else best) c).code)

/-!  Temporary-file lifecycle of `_pipeline_extract`
(`doc_extract.py`, lines 168-303).

The orchestrator's interaction with the file system is modelled by a store
of live temporary-file ids; OCR text, the `pdf2image` conversion and the
strategy-chain run are parameters because they are external effects.  The
control flow around temp-file creation and deletion — including the
`except Exception` handler at the function boundary that returns `None` —
is transcribed from the source. -/

/-- File kind detected by `filetype.guess`. -/
inductive FileKind where
  | image | pdf | otherKind | unknown
deriving DecidableEq, Repr

/-- Outcome of `convert_from_path` on the PDF temp file: a page count, or an
exception (caught at line 238). -/
inductive ConvertOutcome where
  | pages (n : Nat)
  | raises
deriving DecidableEq, Repr

/-- Outcome of `primary_strategy.chain_strategies(...)`: a result, or an
exception that propagates to the handler at line 301. -/
inductive ChainOutcome where
  | ok (r : ExtractionResult)
  | exc
deriving DecidableEq, Repr

/-- The temporary-file store: the next fresh id and the ids currently on
disk. -/
structure TempStore where
  next : Nat
  live : List Nat
deriving DecidableEq, Repr

/-- `tempfile.NamedTemporaryFile(delete=False)`: a fresh file appears. -/
def tsCreate (fs : TempStore) : Nat × TempStore :=
  (fs.next, ⟨fs.next + 1, fs.live ++ [fs.next]⟩)

/-- `os.remove` on a temp file. -/
def tsRemove (fs : TempStore) (i : Nat) : TempStore :=
  ⟨fs.next, fs.live.erase i⟩

/-- Model of `_pipeline_extract`'s temp-file behaviour.  Steps: empty OCR
text returns `None` before any strategy temp file exists (lines 172-175);
the materialization block (lines 207-243) creates the image copy or renders
the first PDF page (deleting the intermediate PDF temp on its success path
only); the chain then runs, and only on its normal completion is the
strategy temp file removed (lines 279-285) — a chain exception jumps to the
boundary handler (lines 301-303), which returns `None` without cleanup. -/
def pipeline_extract (kind : FileKind) (text : String)
    (convert : ConvertOutcome) (chain : ChainOutcome) :
    Option ExtractionResult × TempStore :=
  let fs0 : TempStore := ⟨0, []⟩
  if text = "" then (none, fs0)
  else
    let created : Option Nat × TempStore :=
      match kind with
      | .image =>
        let (i, fs) := tsCreate fs0
        (some i, fs)
      | .pdf =>
        let (p, fs) := tsCreate fs0
        match convert with
        | .raises => (none, fs)
        | .pages n =>
          if n = 0 then (none, tsRemove fs p)
          else
            let (i, fs1) := tsCreate fs
            (some i, tsRemove fs1 p)
      | .otherKind => (none, fs0)
      | .unknown => (none, fs0)
    let tempFile := created.1
    let fs1 := created.2
    match chain with
    | .exc => (none, fs1)
    | .ok r =>
      let fs2 := match tempFile with
                 | some t => tsRemove fs1 t
                 | none => fs1
      (some r, fs2)

/-!  `USPassportStrategy.extract` (`strategies.py`, lines 690-777) and the
`extract_with_country_overwrite` dispatch (lines 1377-1414). -/

/-- A raised Python exception, as far as these claims need it. -/
inductive PyExc where
  | attributeError (attr : String)
  | valueError (msg : String)
  | typeError (msg : String)
deriving DecidableEq, Repr

/-- The attributes a `DocumentExtractionStrategy` instance owns
(`__init__`, lines 93-97); `USPassportStrategy` adds none. -/
def strategyInstanceAttrs : List String :=
  ["_validation_errors", "_warnings", "_confidence", "_fallback_strategy"]

/-- Python attribute lookup on a strategy instance: present attributes are
found, any other name raises `AttributeError`. -/
def strategyGetattr (name : String) : Option String :=
  if name ∈ strategyInstanceAttrs then some name else none

/-- Model of `USPassportStrategy.extract`.  `_validate_input` raises
`ValueError` on empty text (line 128); otherwise the body computes local
`number` / `expiration_date` values, and the `return` statement (lines
771-777) evaluates its keyword arguments first: `self.errors` is not an
attribute of the instance, so `AttributeError` is raised there, so the
locals never reach a caller.  (Had the attribute existed, the constructor
call itself would raise `TypeError`: `ExtractionResult` has no `errors`
keyword and `confidence` / `validation_errors` are missing.) -/
def usPassportExtract (text : String) (_mrz : Option MRZDataRec)
    (_filePath : Option String) : Except PyExc ExtractionResult :=
  if text = "" then .error (.valueError "text must be a non-empty string")
  else
    match strategyGetattr "errors" with
    | none => .error (.attributeError "errors")
    | some _ =>
      .error (.typeError "ExtractionResult got an unexpected keyword argument errors")

/-- The field-overwrite merge of `extract_with_country_overwrite`
(lines 1408-1413): the country result wins any field it populated
(Python `or`), confidence is the minimum, lists concatenate. -/
def overwriteMerge (merged cr : ExtractionResult) : ExtractionResult :=
  { number := pyOrStr cr.number merged.number
    issued_country := pyOrStr cr.issued_country merged.issued_country
    expiration_date := cr.expiration_date.orElse fun _ => merged.expiration_date
    confidence := min merged.confidence cr.confidence
    validation_errors := merged.validation_errors ++ cr.validation_errors
    warnings := merged.warnings ++ cr.warnings }

/-- Step 3 of `extract_with_country_overwrite` (lines 1397-1414): when the
merged issuing country is a key of `country_strategies`, run that strategy
and fold its result in.  The Spanish and Egyptian extracts always return
normally and are parameters; the US extract is `usPassportExtract`. -/
def countryOverwriteStep (espResult egyResult : ExtractionResult)
    (merged : ExtractionResult) (text : String) (mrz : Option MRZDataRec) :
    Except PyExc ExtractionResult :=
  match merged.issued_country with
  | some "EGY" => .ok (overwriteMerge merged egyResult)
  | some "ESP" => .ok (overwriteMerge merged espResult)
  | some "USA" =>
    match usPassportExtract text mrz none with
    | .error e => .error e
    | .ok r => .ok (overwriteMerge merged r)
  | _ => .ok merged

/-- A concrete permissive-parser assignment used to evaluate the fallback
stage of `_find_expiration_date` on the spec's example input. -/
def witnessParse (s : String) : Option Date :=
  if s = "2030-01-01" then some ⟨2030, 1, 1⟩
  else if s = "2026-06-06" then some ⟨2026, 6, 6⟩
  else none

/-!  Helper lemmas. -/

/-- Python `or` on optional strings, characterized: the left value survives
exactly when it is non-null and non-empty. -/
theorem pyOrStr_eq (a b : Option String) :
    pyOrStr a b = if a ≠ none ∧ a ≠ some "" then a else b := by
  match a with
  | none => simp [pyOrStr]
  | some s =>
    by_cases h : s = ""
    · subst h; simp [pyOrStr]
    · simp [pyOrStr, h]

/-- `Option.orElse`, characterized the same way for the date field. -/
theorem orElse_eq (a b : Option Date) :
    (a.orElse fun _ => b) = if a ≠ none then a else b := by
  match a with
  | none => simp
  | some d => simp

/-- The confidence deduction of one event is non-negative. -/
theorem eventCost_nonneg (e : ConfEvent) : 0 ≤ eventCost e := by
  cases e <;> norm_num [eventCost]

/-- The total confidence deduction of a sequence is non-negative. -/
theorem totalCost_nonneg (es : List ConfEvent) : 0 ≤ totalCost es := by
  induction es with
  | nil => simp [totalCost]
  | cons e es ih =>
    have he := eventCost_nonneg e
    simp only [totalCost, List.map_cons, List.sum_cons] at *
    linarith

/-- Folding two floored subtractions is a single floored subtraction when
the second deduction is non-negative. -/
theorem maxZeroSub (x a b : ℚ) (hb : 0 ≤ b) :
    max 0 (max 0 (x - a) - b) = max 0 (x - (a + b)) := by
  rcases le_total (x - a) 0 with h | h <;>
    · simp only [max_def] ; split_ifs <;> linarith

/-- Confidence after an event sequence, for any non-negative start. -/
theorem runEvents_confidence (es : List ConfEvent) (r : ExtractionResult)
    (hr : 0 ≤ r.confidence) :
    (runEvents r es).confidence = max 0 (r.confidence - totalCost es) := by
  induction es generalizing r with
  | nil =>
    simp [runEvents, totalCost, max_eq_right hr]
  | cons e es ih =>
    have hstep : (applyEvent r e).confidence = max 0 (r.confidence - eventCost e) := by
      cases e <;> rfl
    have h0 : 0 ≤ (applyEvent r e).confidence := by
      rw [hstep]; exact le_max_left _ _
    calc (runEvents r (e :: es)).confidence
        = (runEvents (applyEvent r e) es).confidence := rfl
      _ = max 0 ((applyEvent r e).confidence - totalCost es) := ih _ h0
      _ = max 0 (max 0 (r.confidence - eventCost e) - totalCost es) := by rw [hstep]
      _ = max 0 (r.confidence - (eventCost e + totalCost es)) :=
          maxZeroSub _ _ _ (totalCost_nonneg es)
      _ = max 0 (r.confidence - totalCost (e :: es)) := by
          simp [totalCost]

/-- The total deduction counts errors at 0.2 and warnings at 0.1. -/
theorem totalCost_eq (es : List ConfEvent) :
    totalCost es = (1/5) * (numErrors es : ℚ) + (1/10) * (numWarnings es : ℚ) := by
  induction es with
  | nil => simp [totalCost, numErrors, numWarnings]
  | cons e es ih =>
    cases e with
    | err m =>
      simp only [totalCost, numErrors, numWarnings, List.map_cons, List.sum_cons,
        eventCost] at *
      push_cast at ih ⊢
      linarith
    | warn m =>
      simp only [totalCost, numErrors, numWarnings, List.map_cons, List.sum_cons,
        eventCost] at *
      push_cast at ih ⊢
      linarith

/-- The total deduction is monotone along prefixes. -/
theorem totalCost_take_mono (es : List ConfEvent) (n : Nat) :
    totalCost (es.take n) ≤ totalCost (es.take (n + 1)) := by
  rw [List.take_succ]
  simp only [totalCost, List.map_append, List.sum_append]
  have h : 0 ≤ ((es[n]?).toList.map eventCost).sum := by
    cases h : es[n]? with
    | none => simp
    | some e => simp [eventCost_nonneg e]
  linarith

/-- The start of a fold of `dateMax` never exceeds the fold's value. -/
theorem foldl_dateMax_le (xs : List Date) (a : Date) :
    a.rataDie ≤ (xs.foldl dateMax a).rataDie := by
  induction xs generalizing a with
  | nil => exact le_refl _
  | cons x xs ih =>
    refine le_trans ?_ (ih (dateMax a x))
    unfold dateMax
    split_ifs with hx
    · exact Nat.le_of_lt hx
    · exact le_refl _

/-- Every list element is bounded by the fold of `dateMax`. -/
theorem foldl_dateMax_mem_le (xs : List Date) (a c : Date) (hc : c ∈ xs) :
    c.rataDie ≤ (xs.foldl dateMax a).rataDie := by
  induction xs generalizing a with
  | nil => cases hc
  | cons x xs ih =>
    rcases List.mem_cons.mp hc with h | h
    · subst h
      refine le_trans ?_ (foldl_dateMax_le xs (dateMax a c))
      unfold dateMax
      split_ifs with hx
      · exact le_refl _
      · exact Nat.le_of_not_lt hx
    · exact ih _ h

/-!  Claim theorems. -/

/-- C1 (counterexample): the claim predicts that a non-null primary field
always survives the merge, but `_merge_results` uses Python `or`, so a
primary `number` that is the empty string (non-null) is replaced by the
fallback's value. -/
theorem C1_merge_counterexample :
    (mergeResults ⟨some "", none, none, 1, [], []⟩
        ⟨some "B123", none, none, 1, [], []⟩).number = some "B123" ∧
    (some "" : Option String) ≠ none ∧
    (some "B123" : Option String) ≠ some "" := by
  refine ⟨rfl, by decide, by decide⟩

/-- C1 (amended): for every merge, each of `number` and `issued_country` is
the primary's value when that value is non-null **and non-empty** (Python
truthiness), otherwise the fallback's; `expiration_date` is the primary's
when non-null, otherwise the fallback's; confidence is the minimum of the
two; and the error and warning lists are the primary's followed by the
fallback's, order preserved. -/
theorem C1_merge_amended (a b : ExtractionResult) :
    (mergeResults a b).number
        = (if a.number ≠ none ∧ a.number ≠ some "" then a.number else b.number) ∧
    (mergeResults a b).issued_country
        = (if a.issued_country ≠ none ∧ a.issued_country ≠ some "" then
             a.issued_country else b.issued_country) ∧
    (mergeResults a b).expiration_date
        = (if a.expiration_date ≠ none then a.expiration_date else b.expiration_date) ∧
    (mergeResults a b).confidence = min a.confidence b.confidence ∧
    (mergeResults a b).validation_errors = a.validation_errors ++ b.validation_errors ∧
    (mergeResults a b).warnings = a.warnings ++ b.warnings := by
  refine ⟨pyOrStr_eq _ _, pyOrStr_eq _ _, orElse_eq _ _, rfl, rfl, rfl⟩

/-- C2: starting from confidence 1.0, after any interleaved sequence of
`add_error` and `add_warning` calls the confidence is
`max 0 (1 - 0.2*errors - 0.1*warnings)`, and each step of the sequence is
non-increasing (the floor at 0 is applied at each step). -/
theorem C2_confidence_after_events (r : ExtractionResult) (hr : r.confidence = 1)
    (es : List ConfEvent) (n : Nat) :
    (runEvents r es).confidence
        = max 0 (1 - (1/5) * (numErrors es : ℚ) - (1/10) * (numWarnings es : ℚ)) ∧
    (runEvents r (es.take (n + 1))).confidence
        ≤ (runEvents r (es.take n)).confidence := by
  have h0 : (0 : ℚ) ≤ r.confidence := by rw [hr]; norm_num
  constructor
  · rw [runEvents_confidence es r h0, hr, totalCost_eq]
    congr 1
    ring
  · rw [runEvents_confidence _ r h0, runEvents_confidence _ r h0]
    have := totalCost_take_mono es n
    exact max_le_max (le_refl 0) (by linarith)

/-- C2 witness: the formula and the step inequality at a concrete run of
one error and one warning. -/
theorem C2_confidence_after_events_witness :
    (⟨none, none, none, 1, [], []⟩ : ExtractionResult).confidence = 1 ∧
    ((runEvents ⟨none, none, none, 1, [], []⟩ [.err "e1", .warn "w1"]).confidence
        = max 0 (1 - (1/5) * (numErrors [.err "e1", .warn "w1"] : ℚ)
                   - (1/10) * (numWarnings [.err "e1", .warn "w1"] : ℚ)) ∧
     (runEvents ⟨none, none, none, 1, [], []⟩
          ([ConfEvent.err "e1", ConfEvent.warn "w1"].take (0 + 1))).confidence
        ≤ (runEvents ⟨none, none, none, 1, [], []⟩
          ([ConfEvent.err "e1", ConfEvent.warn "w1"].take 0)).confidence) :=
  ⟨rfl, C2_confidence_after_events ⟨none, none, none, 1, [], []⟩ rfl
    [.err "e1", .warn "w1"] 0⟩

/-- C3: the claim (and the comment at `get_strategy`) says the `"passport"`
chain is MRZ, then each country specialization, then Generic, all executed;
but the five `add_fallback_strategy` calls each overwrite the previous
fallback, so the chain the code actually builds and executes is exactly
`[MRZStrategy, GenericStrategy]` — the Spanish, Egyptian, EU-generic and US
strategies are dropped and never run. -/
theorem C3_passport_chain_drops_country_strategies :
    chainTags (get_strategy "passport") = [StrategyTag.MRZ, StrategyTag.GEN] ∧
    ∀ extractOf : StrategyTag → ExtractionResult,
      chainResultsList extractOf (get_strategy "passport")
        = [extractOf .MRZ, extractOf .GEN] :=
  ⟨by decide, fun _ => rfl⟩

/-- C4: when the MRZ stage, the DD-MONTHNAME-YYYY scan and the
keyword-window scan all yield nothing and the permissive fallback scan
produces at least two candidate dates strictly after today,
`_find_expiration_date` returns the furthest (maximum) such future date:
its result is the fold of `dateMax` over the candidates, which bounds every
candidate from above.  (The `dateparser` library is external to the
repository and enters as the `parse` parameter; the regex scans enter as
`ScanData`.) -/
theorem C4_fallback_returns_furthest_future_date
    (parse : String → Option Date) (scan : ScanData) (mrzExp : Option String)
    (today : Date) (c : Date)
    (h1 : mrzStage mrzExp today = none)
    (h2 : ddMonStage scan.ddMonMatches today = none)
    (h3 : keywordStage scan.keywordBlocks today = none)
    (hc : 2 ≤ (futureCandidates parse scan.dateLikeTokens today).length)
    (hmem : c ∈ futureCandidates parse scan.dateLikeTokens today) :
    find_expiration_date parse scan mrzExp today
      = .found (listMaxD (futureCandidates parse scan.dateLikeTokens today)) ∧
    c.rataDie ≤ (listMaxD (futureCandidates parse scan.dateLikeTokens today)).rataDie := by
  have key : find_expiration_date parse scan mrzExp today
      = .found (listMaxD (futureCandidates parse scan.dateLikeTokens today)) := by
    unfold find_expiration_date
    rw [h1, h2, h3]
    unfold fallbackStage
    rcases hl : futureCandidates parse scan.dateLikeTokens today with _ | ⟨x, xs⟩
    · rw [hl] at hc
      simp at hc
    · simp [listMaxD]
  have hbound : ∀ l : List Date, c ∈ l → c.rataDie ≤ (listMaxD l).rataDie := by
    intro l hcl
    cases l with
    | nil => cases hcl
    | cons x xs =>
      simp only [listMaxD]
      rcases List.mem_cons.mp hcl with h | h
      · subst h
        exact foldl_dateMax_le xs c
      · exact foldl_dateMax_mem_le xs x c h
  exact ⟨key, hbound _ hmem⟩

/-- C4 witness: the spec's example — only the substrings `2030-01-01` and
`2026-06-06`, no expiry keyword, parser resolving them to those dates —
yields the furthest future date, 2030-01-01. -/
theorem C4_fallback_returns_furthest_future_date_witness :
    mrzStage none ⟨2025, 10, 12⟩ = none ∧
    ddMonStage (ScanData.mk [] [] ["2030-01-01", "2026-06-06"] []).ddMonMatches ⟨2025, 10, 12⟩ = none ∧
    keywordStage (ScanData.mk [] [] ["2030-01-01", "2026-06-06"] []).keywordBlocks ⟨2025, 10, 12⟩ = none ∧
    2 ≤ (futureCandidates witnessParse
          (ScanData.mk [] [] ["2030-01-01", "2026-06-06"] []).dateLikeTokens ⟨2025, 10, 12⟩).length ∧
    (⟨2026, 6, 6⟩ : Date) ∈ futureCandidates witnessParse
          (ScanData.mk [] [] ["2030-01-01", "2026-06-06"] []).dateLikeTokens ⟨2025, 10, 12⟩ ∧
    listMaxD (futureCandidates witnessParse
          (ScanData.mk [] [] ["2030-01-01", "2026-06-06"] []).dateLikeTokens ⟨2025, 10, 12⟩)
        = ⟨2030, 1, 1⟩ ∧
    (find_expiration_date witnessParse (ScanData.mk [] [] ["2030-01-01", "2026-06-06"] [])
        none ⟨2025, 10, 12⟩
      = .found (listMaxD (futureCandidates witnessParse
          (ScanData.mk [] [] ["2030-01-01", "2026-06-06"] []).dateLikeTokens ⟨2025, 10, 12⟩)) ∧
     Date.rataDie ⟨2026, 6, 6⟩
        ≤ (listMaxD (futureCandidates witnessParse
            (ScanData.mk [] [] ["2030-01-01", "2026-06-06"] []).dateLikeTokens ⟨2025, 10, 12⟩)).rataDie) :=
  ⟨by decide, by decide, by decide, by decide, by decide, by decide,
   C4_fallback_returns_furthest_future_date witnessParse
     (ScanData.mk [] [] ["2030-01-01", "2026-06-06"] []) none ⟨2025, 10, 12⟩
     ⟨2026, 6, 6⟩ (by decide) (by decide) (by decide) (by decide) (by decide)⟩

/-- C5 (counterexample): `MRZStrategy` expands year 49 to 2049 (and 50 to
1950), but `_build_date` — with today in 2025 — expands 49 to 1949 and then
rejects the resulting past date, so the `< 50` pivot rule does not govern
every two-digit-year path. -/
theorem C5_pivot_counterexample :
    mrzPivot 49 = 2049 ∧ mrzPivot 50 = 1950 ∧
    mrzStrategyParseExp "490101" = some ⟨2049, 1, 1⟩ ∧
    pivotYY 2025 49 = 1949 ∧ (1949 : Nat) ≠ 2049 ∧
    build_date 1 1 49 ⟨2025, 10, 12⟩ = none := by
  decide

/-- C5 (amended): the `2000+Y` if `Y < 50` else `1900+Y` rule holds in
`MRZStrategy`'s YYMMDD normalization (so Y=49 gives 2049 and Y=50 gives
1950), but it is not the rule of every path: `_build_date` expands to
`2000+Y` exactly when `Y ≤ (today.year % 100) + 10`, and the `YYMMDD`
fallback of `_parse_date_with_pivot_and_validation` keeps the current
century exactly when `Y ≥ (today.year % 100) - 20` (with today in 2025:
`Y ≤ 35` and `Y ≥ 5` respectively). -/
theorem C5_pivot_amended (y todayYear : Nat) :
    (mrzPivot y = 2000 + y ↔ y < 50) ∧
    (mrzPivot y = 1900 + y ↔ 50 ≤ y) ∧
    (pivotYY todayYear y = 2000 + y ↔ y ≤ todayYear % 100 + 10) ∧
    (parsePivotYYMMDD 2025 y = 2000 + y ↔ 5 ≤ y) := by
  refine ⟨?_, ?_, ?_, ?_⟩ <;>
    · simp only [mrzPivot, pivotYY, parsePivotYYMMDD]
      split_ifs <;> omega

/-- C6 (counterexample): the validation paths are not the claim's rule and
are not uniform.  Yesterday (2025-10-11, strictly before today 2025-10-12)
is accepted by `_parse_date_with_pivot_and_validation`'s final check with no
validation error, although the claim says strictly-past dates are rejected
and recorded; and `_build_date` rejects a date equal to today, although the
claim says it is accepted. -/
theorem C6_date_validation_counterexample :
    Date.rataDie ⟨2025, 10, 11⟩ < Date.rataDie ⟨2025, 10, 12⟩ ∧
    (finalDateValidation ⟨2025, 10, 12⟩ (some ⟨2025, 10, 11⟩) [] []).1
        = some ⟨2025, 10, 11⟩ ∧
    (finalDateValidation ⟨2025, 10, 12⟩ (some ⟨2025, 10, 11⟩) [] []).2.1 = [] ∧
    build_date 12 10 2025 ⟨2025, 10, 12⟩ = none := by
  decide

/-- C6 (amended): in `_parse_date_with_pivot_and_validation` a candidate is
rejected (result `None`, one validation error recorded) exactly when it is
more than one day before today — today **and yesterday** are accepted — and
a warning is recorded exactly when the accepted date is more than 7300 days
in the future; `_build_date`, by contrast, returns a date only when it is
strictly after today (today itself is rejected) and records nothing.  The
paths are not uniform. -/
theorem C6_date_validation_amended (today parsed : Date) (d m y : Nat) (dt : Date)
    (hb : build_date d m y today = some dt) :
    ((finalDateValidation today (some parsed) [] []).1 = none
        ↔ parsed.rataDie + 1 < today.rataDie) ∧
    ((finalDateValidation today (some parsed) [] []).2.1 ≠ []
        ↔ parsed.rataDie + 1 < today.rataDie) ∧
    ((finalDateValidation today (some parsed) [] []).2.2 ≠ []
        ↔ (¬ parsed.rataDie + 1 < today.rataDie
            ∧ today.rataDie + 7300 < parsed.rataDie)) ∧
    today.rataDie < dt.rataDie := by
  refine ⟨?_, ?_, ?_, ?_⟩
  · simp only [finalDateValidation]
    split_ifs <;> simp_all
  · simp only [finalDateValidation]
    split_ifs <;> simp_all
  · simp only [finalDateValidation]
    split_ifs <;> simp_all
  · unfold build_date at hb
    split at hb
    · simp at hb
    · split_ifs at hb with hlt
      cases hb
      exact hlt

/-- C6 witness: the amended characterization at today 2025-10-12 with
parsed candidate 2025-10-11 and `_build_date` accepting 2030-01-01. -/
theorem C6_date_validation_amended_witness :
    build_date 1 1 2030 ⟨2025, 10, 12⟩ = some ⟨2030, 1, 1⟩ ∧
    (((finalDateValidation ⟨2025, 10, 12⟩ (some ⟨2025, 10, 11⟩) [] []).1 = none
        ↔ Date.rataDie ⟨2025, 10, 11⟩ + 1 < Date.rataDie ⟨2025, 10, 12⟩) ∧
     ((finalDateValidation ⟨2025, 10, 12⟩ (some ⟨2025, 10, 11⟩) [] []).2.1 ≠ []
        ↔ Date.rataDie ⟨2025, 10, 11⟩ + 1 < Date.rataDie ⟨2025, 10, 12⟩) ∧
     ((finalDateValidation ⟨2025, 10, 12⟩ (some ⟨2025, 10, 11⟩) [] []).2.2 ≠ []
        ↔ (¬ Date.rataDie ⟨2025, 10, 11⟩ + 1 < Date.rataDie ⟨2025, 10, 12⟩
            ∧ Date.rataDie ⟨2025, 10, 12⟩ + 7300 < Date.rataDie ⟨2025, 10, 11⟩)) ∧
     Date.rataDie ⟨2025, 10, 12⟩ < Date.rataDie ⟨2030, 1, 1⟩) :=
  ⟨by decide, C6_date_validation_amended ⟨2025, 10, 12⟩ ⟨2025, 10, 11⟩ 1 1 2030
    ⟨2030, 1, 1⟩ (by decide)⟩

/-- C7 (counterexample): with an MRZ-sourced and a generic candidate of
equal score, the selection picks the generic one, not the MRZ one — the
sort key uses `source != "MRZ"` with `reverse=True`, which puts non-MRZ
candidates first among equal scores. -/
theorem C7_tiebreak_counterexample :
    selectCountry [⟨"ESP", 5, "MRZ"⟩, ⟨"USA", 5, "Generic"⟩] = some "USA" ∧
    (some "USA" : Option String) ≠ some "ESP" := by
  refine ⟨by decide, by decide⟩

/-- C7 (amended): among equal scores the tie-break prefers sources in the
**reverse** of the claimed order — any non-MRZ candidate beats an MRZ
candidate of the same score, in either input order. -/
theorem C7_tiebreak_amended (a b : CountryCandidate)
    (hs : a.score = b.score) (ha : a.source = "MRZ") (hb : b.source ≠ "MRZ") :
    selectCountry [a, b] = some b.code ∧ selectCountry [b, a] = some b.code := by
  have hA : (a.source != "MRZ") = false := by
    rw [ha]
    decide
  have hB : (b.source != "MRZ") = true := bne_iff_ne.mpr hb
  have hlt1 : ¬ a.score < b.score := by rw [hs]; exact lt_irrefl _
  have hlt2 : ¬ b.score < a.score := by rw [hs]; exact lt_irrefl _
  have hne : ((a.source != "MRZ") ≠ (b.source != "MRZ")) := by
    rw [hA, hB]; decide
  have hne2 : ((b.source != "MRZ") ≠ (a.source != "MRZ")) := by
    rw [hA, hB]; decide
  have k1 : sortKeyLt a b = true := by
    unfold sortKeyLt
    rw [if_neg hlt1, if_neg hlt2, if_pos hne, hB]
  have k2 : sortKeyLt b a = false := by
    unfold sortKeyLt
    rw [if_neg hlt2, if_neg hlt1, if_pos hne2, hA]
  constructor
  · simp [selectCountry, k1]
  · simp [selectCountry, k2]

/-- C7 witness: the amended tie-break at the concrete equal-scored pair. -/
theorem C7_tiebreak_amended_witness :
    (⟨"ESP", 5, "MRZ"⟩ : CountryCandidate).score
        = (⟨"USA", 5, "Generic"⟩ : CountryCandidate).score ∧
    (⟨"ESP", 5, "MRZ"⟩ : CountryCandidate).source = "MRZ" ∧
    (⟨"USA", 5, "Generic"⟩ : CountryCandidate).source ≠ "MRZ" ∧
    (selectCountry [⟨"ESP", 5, "MRZ"⟩, ⟨"USA", 5, "Generic"⟩]
        = some (⟨"USA", 5, "Generic"⟩ : CountryCandidate).code ∧
     selectCountry [⟨"USA", 5, "Generic"⟩, ⟨"ESP", 5, "MRZ"⟩]
        = some (⟨"USA", 5, "Generic"⟩ : CountryCandidate).code) :=
  ⟨rfl, rfl, by decide,
   C7_tiebreak_amended ⟨"ESP", 5, "MRZ"⟩ ⟨"USA", 5, "Generic"⟩ rfl rfl (by decide)⟩

/-- C8 (counterexample): when strategy-chain execution raises, the call
exits through the boundary handler returning `None`, and the materialized
temporary file is still on disk — deletion is not guaranteed on every exit
path. -/
theorem C8_tempfile_counterexample :
    (pipeline_extract .image "PASSPORT" (.pages 0) .exc).1 = none ∧
    (pipeline_extract .image "PASSPORT" (.pages 0) .exc).2.live = [0] := by
  refine ⟨rfl, by decide⟩

/-- C8 (amended): the materialized temporary file is deleted on the normal
completion path (for both the image copy and the first-page PDF render),
but on the path where strategy-chain execution raises an exception the call
returns `None` with the temporary file still live. -/
theorem C8_tempfile_amended (text : String) (h : text ≠ "") (r : ExtractionResult) :
    (pipeline_extract .image text (.pages 0) (.ok r)).2.live = [] ∧
    (pipeline_extract .image text (.pages 0) .exc).2.live = [0] ∧
    (pipeline_extract .image text (.pages 0) .exc).1 = none ∧
    (pipeline_extract .pdf text (.pages 1) (.ok r)).2.live = [] ∧
    (pipeline_extract .pdf text (.pages 1) .exc).2.live = [1] := by
  refine ⟨?_, ?_, ?_, ?_, ?_⟩ <;>
    · unfold pipeline_extract
      rw [if_neg h] <;> rfl

/-- C8 witness: the amended temp-file lifecycle at a concrete call. -/
theorem C8_tempfile_amended_witness :
    ("IMG TEXT" : String) ≠ "" ∧
    ((pipeline_extract .image "IMG TEXT" (.pages 0)
        (.ok ⟨none, none, none, 1, [], []⟩)).2.live = [] ∧
     (pipeline_extract .image "IMG TEXT" (.pages 0) .exc).2.live = [0] ∧
     (pipeline_extract .image "IMG TEXT" (.pages 0) .exc).1 = none ∧
     (pipeline_extract .pdf "IMG TEXT" (.pages 1)
        (.ok ⟨none, none, none, 1, [], []⟩)).2.live = [] ∧
     (pipeline_extract .pdf "IMG TEXT" (.pages 1) .exc).2.live = [1]) :=
  ⟨by decide, C8_tempfile_amended "IMG TEXT" (by decide) ⟨none, none, none, 1, [], []⟩⟩

/-- C9: `add_fallback_strategy` replaces rather than appends — after
`s.add_fallback_strategy(a); s.add_fallback_strategy(b)` the node's only
fallback is `b`, and `chain_strategies` started at `s` executes exactly `s`
followed by `b` and `b`'s own fallbacks (`a` no longer appears in the
chain). -/
theorem C9_add_fallback_replaces (s a b : Strategy)
    (extractOf : StrategyTag → ExtractionResult) :
    (addFallback (addFallback s a) b).fallbackOf = some b ∧
    chainTags (addFallback (addFallback s a) b) = s.tagOf :: chainTags b ∧
    chainResultsList extractOf (addFallback (addFallback s a) b)
      = extractOf s.tagOf :: chainResultsList extractOf b := by
  cases s with
  | node t f => exact ⟨rfl, rfl, rfl⟩

/-- C10: for every non-empty text, `USPassportStrategy.extract` raises —
its `return` reads the undefined attribute `self.errors`, so the call ends
in `AttributeError` and never produces an `ExtractionResult`; and
`extract_with_country_overwrite`'s country step propagates that exception
whenever the merged issuing country is `"USA"`. -/
theorem C10_us_passport_raises (text : String) (h : text ≠ "")
    (mrz : Option MRZDataRec) (fp : Option String)
    (espResult egyResult merged : ExtractionResult)
    (hc : merged.issued_country = some "USA") :
    usPassportExtract text mrz fp = .error (.attributeError "errors") ∧
    countryOverwriteStep espResult egyResult merged text mrz
      = .error (.attributeError "errors") := by
  have h2 : usPassportExtract text mrz none = .error (.attributeError "errors") := by
    unfold usPassportExtract
    rw [if_neg h]
    rfl
  constructor
  · unfold usPassportExtract
    rw [if_neg h]
    rfl
  · unfold countryOverwriteStep
    rw [hc, h2]
    rfl

/-- C10 witness: the raised `AttributeError` at a concrete call. -/
theorem C10_us_passport_raises_witness :
    ("P<USADOE<<JOHN" : String) ≠ "" ∧
    (⟨none, some "USA", none, 1, [], []⟩ : ExtractionResult).issued_country
        = some "USA" ∧
    (usPassportExtract "P<USADOE<<JOHN" none none
        = .error (.attributeError "errors") ∧
     countryOverwriteStep ⟨none, none, none, 1, [], []⟩ ⟨none, none, none, 1, [], []⟩
        ⟨none, some "USA", none, 1, [], []⟩ "P<USADOE<<JOHN" none
        = .error (.attributeError "errors")) :=
  ⟨by decide, rfl,
   C10_us_passport_raises "P<USADOE<<JOHN" (by decide) none none
     ⟨none, none, none, 1, [], []⟩ ⟨none, none, none, 1, [], []⟩
     ⟨none, some "USA", none, 1, [], []⟩ rfl⟩
